import Mathlib

/-!
Shallow embedding of the drogon request core (`src/lib/src/HttpRequestImpl.h`)
and the listener manager (`src/lib/src/ListenerManager.h`).

Strings are Lean `String`s; `std::unordered_map<std::string, std::string>` is
modelled as a key-unique association list; smart pointers are `Option`s;
`trantor::InetAddress` and `trantor::Date` are opaque `Nat` identifiers.
-/

/-- `HttpMethod` from drogon's public headers (used throughout the source). -/
inductive HttpMethod
  | Get
  | Post
  | Head
  | Put
  | Delete
  | Options
  | Patch
  | Invalid
deriving DecidableEq

/-- `drogon::Version`. -/
inductive Version
  | kUnknown
  | kHttp10
  | kHttp11
deriving DecidableEq

/-- `drogon::ContentType` values used by the request core. -/
inductive ContentType
  | CT_NONE
  | CT_CUSTOM
  | CT_TEXT_PLAIN
  | CT_TEXT_HTML
  | CT_APPLICATION_JSON
  | CT_APPLICATION_X_FORM
  | CT_MULTIPART_FORM_DATA
deriving DecidableEq

/-- `drogon::ReqStreamStatus` (HttpRequestImpl.h lines 50-56). -/
inductive ReqStreamStatus
  | None
  | Open
  | Finish
  | Error
deriving DecidableEq

/-- Numeric values of `ReqStreamStatus` (None = 0, Open = 1, Finish = 2,
Error = 3), used for the `>` comparison in `isStreamMode`. -/
def ReqStreamStatus.toNat : ReqStreamStatus → Nat
  | .None => 0
  | .Open => 1
  | .Finish => 2
  | .Error => 3

/-- `m[k] = v` on a key-unique association list: the model of
`std::unordered_map::operator[]` followed by assignment. -/
def mapInsert (m : List (String × String)) (k v : String) :
    List (String × String) :=
  match m with
  | [] => [(k, v)]
  | (k1, v1) :: rest =>
    if k1 = k then (k, v) :: rest else (k1, v1) :: mapInsert rest k v

/-- `m.find(k)` on the association list model. -/
def mapFind (m : List (String × String)) (k : String) : Option String :=
  match m with
  | [] => Option.none
  | (k1, v1) :: rest => if k1 = k then some v1 else mapFind rest k

/-- `m.erase(k)` on the association list model. -/
def mapErase (m : List (String × String)) (k : String) :
    List (String × String) :=
  match m with
  | [] => []
  | (k1, v1) :: rest =>
    if k1 = k then rest else (k1, v1) :: mapErase rest k

/-- `tolower` on an unsigned char in the default locale: shifts A-Z to a-z. -/
def toLowerChar (c : Char) : Char :=
  if 'A' ≤ c ∧ c ≤ 'Z' then Char.ofNat (c.toNat + 32) else c

/-- `std::transform(s.begin(), s.end(), s.begin(), tolower)`. -/
def toLowerStr (s : String) : String :=
  ⟨s.data.map toLowerChar⟩

/-- Value of a hexadecimal digit, `none` for a non-digit (codes 48-57 are
the decimal digits, 65-70 are A-F, 97-102 are a-f). -/
def hexVal (c : Char) : Option Nat :=
  let n := c.toNat
  if 48 ≤ n ∧ n ≤ 57 then some (n - 48)
  else if 65 ≤ n ∧ n ≤ 70 then some (n - 55)
  else if 97 ≤ n ∧ n ≤ 102 then some (n - 87)
  else Option.none

/-- Modelled from the spec: `utils::urlDecode` (Utilities.cc is not under
src/). Percent-decodes a byte sequence: each `%XY` with hexadecimal digits
`X`, `Y` becomes the byte `16*X + Y`; everything else is copied through. -/
def urlDecode : List Char → List Char
  | [] => []
  | '%' :: a :: b :: rest2 =>
    match hexVal a, hexVal b with
    | some ha, some hb => Char.ofNat (16 * ha + hb) :: urlDecode rest2
    | _, _ => '%' :: urlDecode (a :: b :: rest2)
  | c :: rest => c :: urlDecode rest

/-- Modelled from the spec: `utils::needUrlDecoding` (Utilities not under
src/). The spec phrases the `setPath` branch as "if percent-decoding the raw
bytes changes them", so the predicate holds exactly when decoding is not a
no-op. -/
def needUrlDecoding (bytes : List Char) : Bool :=
  if urlDecode bytes = bytes then false else true

/-- Modelled from the spec: `parseContentType` (HttpUtils.cc is not under
src/): case-insensitive match of a mime string against the known types;
an unmatched string yields `CT_NONE`. -/
def parseContentType (s : String) : ContentType :=
  let l := toLowerStr s
  if l = "text/plain" then ContentType.CT_TEXT_PLAIN
  else if l = "text/html" then ContentType.CT_TEXT_HTML
  else if l = "application/json" then ContentType.CT_APPLICATION_JSON
  else if l = "application/x-www-form-urlencoded" then
    ContentType.CT_APPLICATION_X_FORM
  else if l = "multipart/form-data" then ContentType.CT_MULTIPART_FORM_DATA
  else ContentType.CT_NONE

/-- Modelled from the spec: `contentTypeToMime` (HttpUtils.cc is not under
src/): the canonical mime string of each known content type. -/
def contentTypeToMime : ContentType → String
  | ContentType.CT_TEXT_PLAIN => "text/plain"
  | ContentType.CT_TEXT_HTML => "text/html"
  | ContentType.CT_APPLICATION_JSON => "application/json"
  | ContentType.CT_APPLICATION_X_FORM => "application/x-www-form-urlencoded"
  | ContentType.CT_MULTIPART_FORM_DATA => "multipart/form-data"
  | _ => ""

/-- The state of a `drogon::HttpRequestImpl` (fields and their default member
initializers, HttpRequestImpl.h lines 693-740). Pointer members are `Option`s
(`none` = null/empty); `peer_`, `local_`, `creationDate_`, `loop_` and the
certificate are opaque `Nat` identifiers; `streamFinishCb_` records whether a
callback is installed. -/
structure HttpRequestImpl where
  flagForParsingParameters_ : Bool := false
  flagForParsingJson_ : Bool := false
  method_ : HttpMethod := HttpMethod.Invalid
  previousMethod_ : HttpMethod := HttpMethod.Invalid
  version_ : Version := Version.kUnknown
  path_ : String := ""
  originalPath_ : String := ""
  pathEncode_ : Bool := true
  matchedPathPattern_ : String := ""
  query_ : String := ""
  headers_ : List (String × String) := []
  cookies_ : List (String × String) := []
  contentLengthHeaderValue_ : Option Nat := Option.none
  realContentLength_ : Nat := 0
  parameters_ : List (String × String) := []
  jsonPtr_ : Option String := Option.none
  sessionPtr_ : Option Nat := Option.none
  attributesPtr_ : Option Nat := Option.none
  peer_ : Nat := 0
  local_ : Nat := 0
  creationDate_ : Nat := 0
  peerCertificate_ : Option Nat := Option.none
  cacheFilePtr_ : Option String := Option.none
  jsonParsingErrorPtr_ : Option String := Option.none
  expectPtr_ : Option String := Option.none
  keepAlive_ : Bool := true
  isOnSecureConnection_ : Bool := false
  passThrough_ : Bool := false
  routingParams_ : List String := []
  streamStatus_ : ReqStreamStatus := ReqStreamStatus.None
  streamFinishCb_ : Bool := false
  streamReaderPtr_ : Option Nat := Option.none
  streamExceptionPtr_ : Option Nat := Option.none
  startProcessing_ : Bool := false
  connPtr_ : Option Nat := Option.none
  content_ : String := ""
  loop_ : Nat := 0
  contentType_ : ContentType := ContentType.CT_TEXT_PLAIN
  flagForParsingContentType_ : Bool := false
  contentTypeString_ : String := ""

/-- `HttpRequestImpl(trantor::EventLoop *loop)`: a freshly constructed
instance; every field holds its default member initializer, `loop_` the
constructor argument and `creationDate_` the current date. -/
def HttpRequestImpl.mk0 (loop date : Nat) : HttpRequestImpl :=
  { loop_ := loop, creationDate_ := date }

/-- `HttpRequestImpl::reset()` (lines 68-105): assigns exactly the fields
listed there; `peer_`, `local_`, `creationDate_`, `isOnSecureConnection_`,
`passThrough_` and `loop_` are not mentioned by the source and keep their
values. -/
def HttpRequestImpl.reset (r : HttpRequestImpl) : HttpRequestImpl :=
  { r with
    method_ := HttpMethod.Invalid
    previousMethod_ := HttpMethod.Invalid
    version_ := Version.kUnknown
    flagForParsingJson_ := false
    headers_ := []
    cookies_ := []
    contentLengthHeaderValue_ := Option.none
    realContentLength_ := 0
    flagForParsingParameters_ := false
    path_ := ""
    originalPath_ := ""
    pathEncode_ := true
    matchedPathPattern_ := ""
    query_ := ""
    parameters_ := []
    jsonPtr_ := Option.none
    sessionPtr_ := Option.none
    attributesPtr_ := Option.none
    cacheFilePtr_ := Option.none
    expectPtr_ := Option.none
    content_ := ""
    contentType_ := ContentType.CT_TEXT_PLAIN
    flagForParsingContentType_ := false
    contentTypeString_ := ""
    keepAlive_ := true
    jsonParsingErrorPtr_ := Option.none
    peerCertificate_ := Option.none
    routingParams_ := []
    streamStatus_ := ReqStreamStatus.None
    streamReaderPtr_ := Option.none
    streamFinishCb_ := false
    streamExceptionPtr_ := Option.none
    startProcessing_ := false
    connPtr_ := Option.none }

/-- `setSecure(bool)`. -/
def HttpRequestImpl.setSecure (r : HttpRequestImpl) (secure : Bool) :
    HttpRequestImpl :=
  { r with isOnSecureConnection_ := secure }

/-- `setPassThrough(bool)`. -/
def HttpRequestImpl.setPassThrough (r : HttpRequestImpl) (flag : Bool) :
    HttpRequestImpl :=
  { r with passThrough_ := flag }

/-- `setPeerAddr(const trantor::InetAddress &)`. -/
def HttpRequestImpl.setPeerAddr (r : HttpRequestImpl) (peer : Nat) :
    HttpRequestImpl :=
  { r with peer_ := peer }

/-- `setLocalAddr(const trantor::InetAddress &)`. -/
def HttpRequestImpl.setLocalAddr (r : HttpRequestImpl) (l : Nat) :
    HttpRequestImpl :=
  { r with local_ := l }

/-- `setMethod(const HttpMethod)` (lines 135-140): shifts the current method
into `previousMethod_` and stores the new one. -/
def HttpRequestImpl.setMethod (r : HttpRequestImpl) (method : HttpMethod) :
    HttpRequestImpl :=
  { r with previousMethod_ := r.method_, method_ := method }

/-- `isHead()` (lines 147-152). -/
def HttpRequestImpl.isHead (r : HttpRequestImpl) : Bool :=
  (r.method_ == HttpMethod.Head) ||
    ((r.method_ == HttpMethod.Get) &&
      (r.previousMethod_ == HttpMethod.Head))

/-- `setPath(const char *start, const char *end)` (lines 156-167): decodes
into `path_` and keeps the raw bytes in `originalPath_` only when decoding
changes them, otherwise appends the bytes to `path_` directly. -/
def HttpRequestImpl.setPathBytes (r : HttpRequestImpl) (bytes : List Char) :
    HttpRequestImpl :=
  if needUrlDecoding bytes then
    { r with
      originalPath_ := r.originalPath_ ++ ⟨bytes⟩
      path_ := ⟨urlDecode bytes⟩ }
  else
    { r with path_ := r.path_ ++ ⟨bytes⟩ }

/-- `getOriginalPath()` (lines 215-218). -/
def HttpRequestImpl.getOriginalPath (r : HttpRequestImpl) : String :=
  if r.originalPath_ = "" then r.path_ else r.originalPath_

/-- `addHeader(std::string field, const std::string &value)`
(lines 433-440): lowercases the key, then stores. -/
def HttpRequestImpl.addHeaderKV (r : HttpRequestImpl) (field value : String) :
    HttpRequestImpl :=
  { r with headers_ := mapInsert r.headers_ (toLowerStr field) value }

/-- `removeHeader(std::string key)` (lines 341-347): lowercases the key, then
erases. -/
def HttpRequestImpl.removeHeader (r : HttpRequestImpl) (key : String) :
    HttpRequestImpl :=
  { r with headers_ := mapErase r.headers_ (toLowerStr key) }

/-- `getHeaderBy(const std::string &lowerField)` (lines 363-372): lookup of
an already-lowercased key, empty string as default. -/
def HttpRequestImpl.getHeaderBy (r : HttpRequestImpl) (lowerField : String) :
    String :=
  match mapFind r.headers_ lowerField with
  | some v => v
  | Option.none => ""

/-- `getHeader(std::string field)` (lines 354-361): lowercases the argument,
then looks up. -/
def HttpRequestImpl.getHeader (r : HttpRequestImpl) (field : String) :
    String :=
  r.getHeaderBy (toLowerStr field)

/-- `setParameter(const std::string &, const std::string &)`
(lines 405-409): marks the parameter memo computed and stores the pair. -/
def HttpRequestImpl.setParameter (r : HttpRequestImpl) (key value : String) :
    HttpRequestImpl :=
  { r with
    flagForParsingParameters_ := true
    parameters_ := mapInsert r.parameters_ key value }

/-- `parseParametersOnce()` (lines 675-684). `parseParameters()` is only
declared in the header (its body is not under src/), so it is passed in as an
arbitrary function `pp` computing the parameter map from the state. -/
def HttpRequestImpl.parseParametersOnce
    (pp : HttpRequestImpl → List (String × String)) (r : HttpRequestImpl) :
    HttpRequestImpl :=
  if r.flagForParsingParameters_ then r
  else { r with flagForParsingParameters_ := true, parameters_ := pp r }

/-- `parameters()` (lines 194-198): runs the lazy parse, then returns the
map; the resulting state is returned alongside (the member is `mutable`). -/
def HttpRequestImpl.parametersFn
    (pp : HttpRequestImpl → List (String × String)) (r : HttpRequestImpl) :
    List (String × String) × HttpRequestImpl :=
  let r1 := r.parseParametersOnce pp
  (r1.parameters_, r1)

/-- `isStreamMode()` (lines 603-606): `streamStatus_ > ReqStreamStatus::None`. -/
def HttpRequestImpl.isStreamMode (r : HttpRequestImpl) : Bool :=
  decide (r.streamStatus_.toNat > ReqStreamStatus.None.toNat)

/-- `bodyView()` (lines 230-241). -/
def HttpRequestImpl.bodyView (r : HttpRequestImpl) : String :=
  if r.isStreamMode then ""
  else
    match r.cacheFilePtr_ with
    | some s => s
    | Option.none => r.content_

/-- `bodyData()` (lines 243-254), modelled as the string the returned pointer
designates. -/
def HttpRequestImpl.bodyDataStr (r : HttpRequestImpl) : String :=
  if r.isStreamMode then ""
  else
    match r.cacheFilePtr_ with
    | some s => s
    | Option.none => r.content_

/-- `bodyLength()` (lines 256-267). -/
def HttpRequestImpl.bodyLength (r : HttpRequestImpl) : Nat :=
  if r.isStreamMode then ("" : String).length
  else
    match r.cacheFilePtr_ with
    | some s => s.length
    | Option.none => r.content_.length

/-- `contentView()` (lines 278-287). -/
def HttpRequestImpl.contentView (r : HttpRequestImpl) : String :=
  if r.isStreamMode then ""
  else
    match r.cacheFilePtr_ with
    | some s => s
    | Option.none => r.content_

/-- The part of the Content-Type header before the first `;` (the source
computes `find(';')` and takes the substring up to it, lines 653-663). -/
def beforeSemicolon (s : String) : String :=
  ⟨s.data.takeWhile (fun c => c ≠ ';')⟩

/-- `parseContentTypeAndString()` (lines 641-670). -/
def HttpRequestImpl.parseContentTypeAndString (r : HttpRequestImpl) :
    HttpRequestImpl :=
  if r.flagForParsingContentType_ then r
  else
    let contentTypeString := r.getHeaderBy "content-type"
    if contentTypeString = "" then
      { r with
        flagForParsingContentType_ := true
        contentType_ := ContentType.CT_NONE }
    else
      let ct0 := parseContentType (beforeSemicolon contentTypeString)
      let ct :=
        if ct0 = ContentType.CT_NONE then ContentType.CT_CUSTOM else ct0
      { r with
        flagForParsingContentType_ := true
        contentType_ := ct
        contentTypeString_ := contentTypeString }

/-- `contentType()` (lines 533-537): runs the lazy resolution, returns the
enum together with the resulting state (the members are `mutable`). -/
def HttpRequestImpl.contentTypeFn (r : HttpRequestImpl) :
    ContentType × HttpRequestImpl :=
  let r1 := r.parseContentTypeAndString
  (r1.contentType_, r1)

/-- `std::string::npos` on a 64-bit platform. -/
def npos : Nat := 2 ^ 64 - 1

/-- `pat` is an initial segment of `s`. -/
def isLeadOf (pat s : List Char) : Bool :=
  match pat, s with
  | [], _ => true
  | _ :: _, [] => false
  | p :: ps, q :: qs => if p = q then isLeadOf ps qs else false

/-- `s.find(pat)`: smallest index where `pat` occurs in full, else `npos`. -/
def strFind (s pat : List Char) : Nat :=
  match (List.range (s.length + 1)).find? (fun i => isLeadOf pat (s.drop i)) with
  | some i => i
  | Option.none => npos

/-- `s.rfind(pat)`: largest index where `pat` occurs in full, else `npos`. -/
def strRfind (s pat : List Char) : Nat :=
  match ((List.range (s.length + 1)).filter
      (fun i => isLeadOf pat (s.drop i))).getLast? with
  | some i => i
  | Option.none => npos

/-- `type.size() - 2` computed in `size_t`: wraps modulo `2 ^ 64` when the
string is shorter than two characters. -/
def sizeSub2 (n : Nat) : Nat := (n + (2 ^ 64 - 2)) % 2 ^ 64

/-- The bytes of the literal "content-type: " (14 characters). -/
def ctHeaderLead : List Char := "content-type: ".data

/-- The bytes of the literal CRLF. -/
def crlfChars : List Char := "\r\n".data

/-- `haveHeader` in `setCustomContentTypeString` (line 503):
`type.find("content-type: ") == 0`. -/
def haveHeaderFlag (t : List Char) : Bool := strFind t ctHeaderLead == 0

/-- `haveCRLF` in `setCustomContentTypeString` (line 504):
`type.rfind("\r\n") == type.size() - 2`, with the `size_t` wrap made
explicit. -/
def haveCRLFFlag (t : List Char) : Bool :=
  strRfind t crlfChars == sizeSub2 t.length

/-- Offset added to `type.begin()` in the extraction (line 511). -/
def customCTStart (t : List Char) : Nat := if haveHeaderFlag t then 14 else 0

/-- `endOffset` subtracted from `type.end()` (lines 506-512). -/
def customCTEndOffset (t : List Char) : Nat :=
  (if haveHeaderFlag t then 14 else 0) + (if haveCRLFFlag t then 2 else 0)

/-- The iterator range `[begin + start, end - endOffset)` built on line 511
stays inside the string: `end - endOffset` does not run past `begin`, and
`begin + start` does not run past `end - endOffset`. -/
def customCTRangeValid (t : List Char) : Bool :=
  decide (customCTEndOffset t ≤ t.length) &&
    decide (customCTStart t ≤ t.length - customCTEndOffset t)

/-- `setCustomContentTypeString(const std::string &)` (lines 499-513).
Returns `none` when the iterator range of line 511 leaves the string's
bounds (undefined behavior in the source); otherwise performs the
extraction. -/
def HttpRequestImpl.setCustomContentTypeString (r : HttpRequestImpl)
    (type : String) : Option HttpRequestImpl :=
  let t := type.data
  if customCTRangeValid t then
    some { r with
      contentType_ := ContentType.CT_NONE
      flagForParsingContentType_ := true
      contentTypeString_ :=
        ⟨(t.drop (customCTStart t)).take
          (t.length - customCTEndOffset t - customCTStart t)⟩ }
  else Option.none

/-- Modelled from the spec: the ListenerManager life-cycle phases of the
state machine "Declared → Created (exactly once) → Listening ⇄ Stopped"
(ListenerManager.cc is not under src/; only the class declaration is). -/
inductive LMPhase
  | Declared
  | Created
  | Listening
  | Stopped
deriving DecidableEq

/-- `ListenerManager::ListenerInfo` (ListenerManager.h lines 73-100). -/
structure ListenerInfo where
  ip_ : String
  port_ : Nat
  useSSL_ : Bool
  certFile_ : String
  keyFile_ : String
  useOldTLS_ : Bool
  sslConfCmds_ : List (String × String)
deriving DecidableEq

/-- Modelled from the spec: `ListenerManager` state — the declared specs, the
created socket owners (here: each one's resolved certificate/key pair) and
the life-cycle phase. -/
structure ListenerManager where
  phase_ : LMPhase
  listeners_ : List ListenerInfo
  servers_ : List (String × String)
deriving DecidableEq

/-- A `ListenerManager` as initially constructed: nothing declared, nothing
created. -/
def ListenerManager.init : ListenerManager :=
  { phase_ := LMPhase.Declared, listeners_ := [], servers_ := [] }

/-- Modelled from the spec: `addListener(spec)` is "valid only before
creation; purely declarative, opens nothing" — it appends the spec in the
Declared phase and fails otherwise, never touching `servers_`. -/
def ListenerManager.addListener (m : ListenerManager) (info : ListenerInfo) :
    Option ListenerManager :=
  if m.phase_ = LMPhase.Declared then
    some { m with listeners_ := m.listeners_ ++ [info] }
  else Option.none

/-- Modelled from the spec: the effective certificate/key of one listener —
"spec value if present, else the global fallback". -/
def effectiveCertKey (info : ListenerInfo) (globalCert globalKey : String) :
    String × String :=
  (if info.certFile_ = "" then globalCert else info.certFile_,
   if info.keyFile_ = "" then globalKey else info.keyFile_)

/-- Modelled from the spec: `createListeners` is a "one-shot transition"
("exactly once; a second call fails"): from Declared it creates one socket
owner per spec with its resolved certificate/key and moves to Created; in
any other phase it fails. -/
def ListenerManager.createListeners (m : ListenerManager)
    (globalCert globalKey : String) : Option ListenerManager :=
  if m.phase_ = LMPhase.Declared then
    some { m with
      phase_ := LMPhase.Created
      servers_ := m.listeners_.map
        (fun i => effectiveCertKey i globalCert globalKey) }
  else Option.none

/-- Modelled from the spec: `startListening()` toggles the created sockets
into the Listening state. -/
def ListenerManager.startListening (m : ListenerManager) :
    Option ListenerManager :=
  if m.phase_ = LMPhase.Created ∨ m.phase_ = LMPhase.Stopped then
    some { m with phase_ := LMPhase.Listening }
  else Option.none

/-- Modelled from the spec: `stopListening()` is "idempotent and safe even
if never started" once the sockets exist; before creation there is nothing
to stop. -/
def ListenerManager.stopListening (m : ListenerManager) :
    Option ListenerManager :=
  if m.phase_ = LMPhase.Declared then Option.none
  else some { m with phase_ := LMPhase.Stopped }

/-- Modelled from the spec: `reloadSSLFiles()` is "valid only once Created"
— in any phase reached after creation it re-reads each created listener's
certificate/key pair and reports a per-listener result. -/
def ListenerManager.reloadSSLFiles (m : ListenerManager) :
    Option (List (String × String)) :=
  if m.phase_ = LMPhase.Declared then Option.none
  else some m.servers_

/-- Test fixture: a fresh request whose pass-through flag, secure flag and
addresses have been set through the source's setters. -/
def pollutedReq : HttpRequestImpl :=
  ((((HttpRequestImpl.mk0 0 0).setPassThrough true).setSecure
    true).setPeerAddr 1).setLocalAddr 2

/-- Test fixture: a fresh request carrying a Content-Type header with a
charset clause whose mime part matches a known type. -/
def ctReq : HttpRequestImpl :=
  (HttpRequestImpl.mk0 0 0).addHeaderKV "Content-Type"
    "text/html; charset=utf-8"

/-- Test fixture: as `ctReq`, with an application/json header. -/
def ctJsonReq : HttpRequestImpl :=
  (HttpRequestImpl.mk0 0 0).addHeaderKV "Content-Type"
    "application/json; charset=utf-8"

/-- Test fixture: a request whose stream channel is Open while both the
in-memory buffer and the spooled file hold data. -/
def streamReq : HttpRequestImpl :=
  { HttpRequestImpl.mk0 0 0 with
    streamStatus_ := ReqStreamStatus.Open
    content_ := "hello"
    cacheFilePtr_ := some "spooled" }

/-- Test fixture: one listener spec. -/
def li0 : ListenerInfo :=
  { ip_ := "0.0.0.0", port_ := 80, useSSL_ := false, certFile_ := ""
    keyFile_ := "", useOldTLS_ := false, sslConfCmds_ := [] }

/-- Test fixture: the listener manager right after a successful
`createListeners` on a freshly constructed manager. -/
def lmAfterCreate : ListenerManager :=
  { phase_ := LMPhase.Created, listeners_ := [], servers_ := [] }

/-- A `String` built from a character list is empty exactly when the list
is. -/
theorem strMk_eq_empty_iff (l : List Char) : (⟨l⟩ : String) = "" ↔ l = [] := by
  constructor
  · intro h
    exact congrArg String.data h
  · intro h
    subst h
    rfl

/-- Appending to the empty string is the identity. -/
theorem strEmptyAppend (s : String) : "" ++ s = s := rfl

/-- Inserting a binding makes it findable. -/
theorem mapFind_mapInsert_self (m : List (String × String)) (k v : String) :
    mapFind (mapInsert m k v) k = some v := by
  induction m with
  | nil => simp [mapInsert, mapFind]
  | cons p rest ih =>
    obtain ⟨k1, v1⟩ := p
    by_cases hk : k1 = k
    · simp [mapInsert, mapFind, hk]
    · simp [mapInsert, mapFind, hk, ih]

/-- `parseContentTypeAndString` always leaves the parsed flag set. -/
theorem parse_ct_flag (r : HttpRequestImpl) :
    r.parseContentTypeAndString.flagForParsingContentType_ = true := by
  unfold HttpRequestImpl.parseContentTypeAndString
  by_cases h1 : r.flagForParsingContentType_ = true
  · simp [h1]
  · by_cases h2 : r.getHeaderBy "content-type" = ""
    · simp [h1, h2]
    · simp [h1, h2]

/-- `parseContentTypeAndString` is the identity once the flag is set. -/
theorem parse_ct_of_flag (r : HttpRequestImpl)
    (h : r.flagForParsingContentType_ = true) :
    r.parseContentTypeAndString = r := by
  unfold HttpRequestImpl.parseContentTypeAndString
  simp [h]

/-- `parseParametersOnce` always leaves the parsed flag set. -/
theorem parseParamsOnce_flag (pp : HttpRequestImpl → List (String × String))
    (r : HttpRequestImpl) :
    (r.parseParametersOnce pp).flagForParsingParameters_ = true := by
  unfold HttpRequestImpl.parseParametersOnce
  split
  · assumption
  · rfl

/-- `parseParametersOnce` is the identity once the flag is set. -/
theorem parseParamsOnce_of_flag
    (pp : HttpRequestImpl → List (String × String)) (r : HttpRequestImpl)
    (h : r.flagForParsingParameters_ = true) :
    r.parseParametersOnce pp = r := by
  unfold HttpRequestImpl.parseParametersOnce
  simp [h]

/-- C1 (counterexample): `reset()` does not restore the peer address, the
local address, the secure-connection flag or the pass-through flag — after
resetting a request on which they were set, all four still differ from a
freshly constructed instance's defaults. -/
theorem c1_reset_counterexample :
    pollutedReq.reset.passThrough_ = true ∧
    (HttpRequestImpl.mk0 0 0).passThrough_ = false ∧
    pollutedReq.reset.isOnSecureConnection_ = true ∧
    (HttpRequestImpl.mk0 0 0).isOnSecureConnection_ = false ∧
    pollutedReq.reset.peer_ = 1 ∧
    (HttpRequestImpl.mk0 0 0).peer_ = 0 ∧
    pollutedReq.reset.local_ = 2 ∧
    (HttpRequestImpl.mk0 0 0).local_ = 0 := by
  decide

/-- C1 (amended): after `reset()` the instance is field-for-field equal to a
freshly constructed instance except for the creation timestamp, the loop
pointer, the peer address, the local address, the secure-connection flag and
the pass-through flag, which keep their pre-reset values. -/
theorem c1_reset_amended (r : HttpRequestImpl) :
    r.reset =
      { HttpRequestImpl.mk0 r.loop_ r.creationDate_ with
        peer_ := r.peer_
        local_ := r.local_
        isOnSecureConnection_ := r.isOnSecureConnection_
        passThrough_ := r.passThrough_ } := rfl

/-- C5: `addHeader` lowercases the key at insertion and `getHeader`
lowercases its argument before lookup, so any two casings of the same field
name read back the stored value. -/
theorem c5_header_case_insensitive (r : HttpRequestImpl) (f1 f2 v : String)
    (h : toLowerStr f1 = toLowerStr f2) :
    (r.addHeaderKV f1 v).headers_ = mapInsert r.headers_ (toLowerStr f1) v ∧
    (r.addHeaderKV f1 v).getHeader f2 = v := by
  refine ⟨rfl, ?_⟩
  unfold HttpRequestImpl.getHeader HttpRequestImpl.getHeaderBy
    HttpRequestImpl.addHeaderKV
  rw [← h]
  simp [mapFind_mapInsert_self]

/-- C5 (witness): storing under "Content-Type" and reading "CONTENT-TYPE"
yields the stored value. -/
theorem c5_header_witness :
    ((HttpRequestImpl.mk0 0 0).addHeaderKV "Content-Type"
      "text/html").getHeader "CONTENT-TYPE" = "text/html" :=
  (c5_header_case_insensitive (HttpRequestImpl.mk0 0 0) "Content-Type"
    "CONTENT-TYPE" "text/html" (by decide)).2

/-- C7: while the stream channel is Open, `bodyView`, `bodyData`,
`bodyLength` and `contentView` all return empty, whatever the in-memory
buffer or the spooled file contain. -/
theorem c7_stream_accessors_empty (r : HttpRequestImpl)
    (h : r.streamStatus_ = ReqStreamStatus.Open) :
    r.bodyView = "" ∧ r.bodyDataStr = "" ∧ r.bodyLength = 0 ∧
    r.contentView = "" := by
  have hm : r.isStreamMode = true := by
    unfold HttpRequestImpl.isStreamMode
    rw [h]
    decide
  unfold HttpRequestImpl.bodyView HttpRequestImpl.bodyDataStr
    HttpRequestImpl.bodyLength HttpRequestImpl.contentView
  simp [hm]

/-- C7 (witness): a concrete Open-stream request with both a non-empty
buffer and a non-empty spooled file reads back as empty. -/
theorem c7_stream_witness :
    streamReq.content_ = "hello" ∧ streamReq.cacheFilePtr_ = some "spooled" ∧
    streamReq.bodyView = "" ∧ streamReq.bodyDataStr = "" ∧
    streamReq.bodyLength = 0 ∧ streamReq.contentView = "" := by
  have h := c7_stream_accessors_empty streamReq rfl
  exact ⟨rfl, rfl, h.1, h.2.1, h.2.2.1, h.2.2.2⟩

/-- C9: `setMethod` shifts the current method into the previous-method field
before storing the new one, and `isHead` holds exactly when the method is
Head, or the method is Get with previous method Head. -/
theorem c9_setMethod_isHead (r : HttpRequestImpl) (m : HttpMethod) :
    (r.setMethod m).previousMethod_ = r.method_ ∧
    (r.setMethod m).method_ = m ∧
    (r.isHead = true ↔
      r.method_ = HttpMethod.Head ∨
        (r.method_ = HttpMethod.Get ∧
          r.previousMethod_ = HttpMethod.Head)) := by
  refine ⟨rfl, rfl, ?_⟩
  unfold HttpRequestImpl.isHead
  simp [Bool.or_eq_true, Bool.and_eq_true, beq_iff_eq]

/-- C10 (code bug): on the one-character input "a", `type.size() - 2` wraps
to `npos` in `size_t`, so `rfind` reporting "not found" is mistaken for a
trailing CRLF and the extraction range `[begin, end - 2)` leaves the
string's bounds; the same happens on a full "content-type: ...\r\n" line,
where the 14-character offset is subtracted from both ends. Empty input and
a plain "ab\r\n" stay in bounds. -/
theorem c10_custom_content_type_bounds :
    sizeSub2 ("a".data).length = npos ∧
    strRfind "a".data crlfChars = npos ∧
    haveCRLFFlag "a".data = true ∧
    customCTRangeValid "a".data = false ∧
    (HttpRequestImpl.mk0 0 0).setCustomContentTypeString "a" = Option.none ∧
    customCTRangeValid "content-type: text/html\r\n".data = false ∧
    customCTRangeValid "".data = true ∧
    customCTRangeValid "ab\r\n".data = true := by
  refine ⟨by decide, by decide, by decide, by decide, rfl, by decide,
    by decide, by decide⟩

/-- C2: on a fresh request, `setPath(start, end)` stores the decoded form as
path and the raw bytes as original path when percent-decoding changes the
bytes — so `getOriginalPath()` returns the raw bytes — and otherwise stores
the bytes directly, leaves the original-path field empty and
`getOriginalPath()` equals `path()`. -/
theorem c2_setPath_original_path (r : HttpRequestImpl) (bytes : List Char)
    (h1 : r.path_ = "") (h2 : r.originalPath_ = "") :
    (needUrlDecoding bytes = true →
      (r.setPathBytes bytes).path_ = (⟨urlDecode bytes⟩ : String) ∧
      (r.setPathBytes bytes).originalPath_ = (⟨bytes⟩ : String) ∧
      (r.setPathBytes bytes).getOriginalPath = (⟨bytes⟩ : String)) ∧
    (needUrlDecoding bytes = false →
      (r.setPathBytes bytes).path_ = (⟨bytes⟩ : String) ∧
      (r.setPathBytes bytes).originalPath_ = "" ∧
      (r.setPathBytes bytes).getOriginalPath =
        (r.setPathBytes bytes).path_) := by
  constructor
  · intro hd
    have hb : bytes ≠ [] := by
      intro hnil
      subst hnil
      simp [needUrlDecoding, urlDecode] at hd
    have hop : (r.setPathBytes bytes).originalPath_ = (⟨bytes⟩ : String) := by
      unfold HttpRequestImpl.setPathBytes
      simp only [hd, if_true]
      rw [h2]
      exact strEmptyAppend _
    refine ⟨?_, hop, ?_⟩
    · unfold HttpRequestImpl.setPathBytes
      simp only [hd, if_true]
    · unfold HttpRequestImpl.getOriginalPath
      rw [hop]
      rw [if_neg]
      intro he
      exact hb ((strMk_eq_empty_iff bytes).mp he)
  · intro hd
    have hd2 : needUrlDecoding bytes ≠ true := by simp [hd]
    have hp : (r.setPathBytes bytes).path_ = (⟨bytes⟩ : String) := by
      unfold HttpRequestImpl.setPathBytes
      rw [if_neg hd2, h1]
      exact strEmptyAppend _
    have hop : (r.setPathBytes bytes).originalPath_ = "" := by
      unfold HttpRequestImpl.setPathBytes
      rw [if_neg hd2]
      exact h2
    refine ⟨hp, hop, ?_⟩
    unfold HttpRequestImpl.getOriginalPath
    rw [hop, if_pos rfl]

/-- C2 (witness): "a%20b" decodes to "a b"; the decoded form is the path and
the raw bytes remain available through `getOriginalPath`. -/
theorem c2_setPath_witness :
    ((HttpRequestImpl.mk0 0 0).setPathBytes "a%20b".data).path_ = "a b" ∧
    ((HttpRequestImpl.mk0 0 0).setPathBytes "a%20b".data).getOriginalPath =
      "a%20b" := by
  have h := (c2_setPath_original_path (HttpRequestImpl.mk0 0 0)
    "a%20b".data rfl rfl).1 (by decide)
  exact ⟨h.1.trans (by decide), h.2.2.trans (by decide)⟩

/-- C3 (counterexample): when the Content-Type header matches a known type,
the stored content-type string is NOT replaced by the canonical form — the
source keeps the original header value verbatim in the matched case too. -/
theorem c3_contentType_counterexample :
    ctReq.contentTypeFn.1 = ContentType.CT_TEXT_HTML ∧
    ctReq.contentTypeFn.2.contentTypeString_ =
      "text/html; charset=utf-8" ∧
    contentTypeToMime ContentType.CT_TEXT_HTML = "text/html" ∧
    ctReq.contentTypeFn.2.contentTypeString_ ≠
      contentTypeToMime ContentType.CT_TEXT_HTML := by
  decide

/-- C3 (amended): the first `contentType()` call resolves from the stored
Content-Type header, ignoring any ';'-suffixed parameter clause for the
match: absent header gives CT_NONE; present but unmatched gives CT_CUSTOM;
matched gives the canonical type — and in both present cases the stored
content-type string preserves the original header value verbatim. -/
theorem c3_contentType_amended (r : HttpRequestImpl)
    (h : r.flagForParsingContentType_ = false) :
    (r.getHeaderBy "content-type" = "" →
      r.contentTypeFn.1 = ContentType.CT_NONE ∧
      r.contentTypeFn.2.contentTypeString_ = r.contentTypeString_) ∧
    (r.getHeaderBy "content-type" ≠ "" →
      parseContentType (beforeSemicolon (r.getHeaderBy "content-type")) =
          ContentType.CT_NONE →
      r.contentTypeFn.1 = ContentType.CT_CUSTOM ∧
      r.contentTypeFn.2.contentTypeString_ =
        r.getHeaderBy "content-type") ∧
    (r.getHeaderBy "content-type" ≠ "" →
      parseContentType (beforeSemicolon (r.getHeaderBy "content-type")) ≠
          ContentType.CT_NONE →
      r.contentTypeFn.1 =
        parseContentType (beforeSemicolon (r.getHeaderBy "content-type")) ∧
      r.contentTypeFn.2.contentTypeString_ =
        r.getHeaderBy "content-type") := by
  have hf : r.flagForParsingContentType_ ≠ true := by simp [h]
  refine ⟨?_, ?_, ?_⟩
  · intro he
    unfold HttpRequestImpl.contentTypeFn
      HttpRequestImpl.parseContentTypeAndString
    simp [hf, he]
  · intro he hn
    unfold HttpRequestImpl.contentTypeFn
      HttpRequestImpl.parseContentTypeAndString
    simp [hf, he, hn]
  · intro he hn
    unfold HttpRequestImpl.contentTypeFn
      HttpRequestImpl.parseContentTypeAndString
    simp [hf, he, hn]

/-- C3 (witness): a matched header with a charset clause resolves to the
canonical type while the stored string keeps the original value. -/
theorem c3_contentType_witness :
    ctJsonReq.contentTypeFn.1 = ContentType.CT_APPLICATION_JSON ∧
    ctJsonReq.contentTypeFn.2.contentTypeString_ =
      "application/json; charset=utf-8" := by
  have h := (c3_contentType_amended ctJsonReq rfl).2.2 (by decide) (by decide)
  exact ⟨h.1.trans (by decide), h.2.trans (by decide)⟩

/-- C4: `contentType()` memoizes — after a first call, adding or removing a
header (in particular Content-Type) and calling `contentType()` again
returns the first call's value, and the resolution does not run again (the
second `parseContentTypeAndString` is the identity). -/
theorem c4_contentType_memoized (r : HttpRequestImpl) (k v : String) :
    (r.contentTypeFn.2.addHeaderKV k v).contentTypeFn.1 =
      r.contentTypeFn.1 ∧
    (r.contentTypeFn.2.removeHeader k).contentTypeFn.1 =
      r.contentTypeFn.1 ∧
    (r.contentTypeFn.2.addHeaderKV k v).parseContentTypeAndString =
      r.contentTypeFn.2.addHeaderKV k v ∧
    (r.contentTypeFn.2.removeHeader k).parseContentTypeAndString =
      r.contentTypeFn.2.removeHeader k := by
  have ha := parse_ct_of_flag (r.contentTypeFn.2.addHeaderKV k v)
    (parse_ct_flag r)
  have hr := parse_ct_of_flag (r.contentTypeFn.2.removeHeader k)
    (parse_ct_flag r)
  exact ⟨(congrArg HttpRequestImpl.contentType_ ha).trans rfl,
    (congrArg HttpRequestImpl.contentType_ hr).trans rfl, ha, hr⟩

/-- C6: `setParameter` before the first `parameters()` access marks the memo
computed, so the lazy pass never runs (whatever `parseParameters` would have
computed), the caller-supplied pair is readable, and a second lazy pass
after a first is also a no-op. -/
theorem c6_parameters_preseed
    (pp pq : HttpRequestImpl → List (String × String))
    (r : HttpRequestImpl) (k v : String) :
    (r.setParameter k v).parseParametersOnce pp = r.setParameter k v ∧
    mapFind ((r.setParameter k v).parametersFn pp).1 k = some v ∧
    (r.parseParametersOnce pp).parseParametersOnce pq =
      r.parseParametersOnce pp := by
  have h1 : (r.setParameter k v).parseParametersOnce pp =
      r.setParameter k v :=
    parseParamsOnce_of_flag pp (r.setParameter k v) rfl
  refine ⟨h1, ?_, ?_⟩
  · show mapFind ((r.setParameter k v).parseParametersOnce pp).parameters_ k
      = some v
    rw [h1]
    exact mapFind_mapInsert_self r.parameters_ k v
  · exact parseParamsOnce_of_flag pq (r.parseParametersOnce pp)
      (parseParamsOnce_flag pp r)

/-- C8: the listener manager follows Declared → Created → Listening ⇄
Stopped: `createListeners` succeeds exactly from the Declared phase and a
second call fails; `addListener` is declarative before creation (it opens
nothing) and fails after; `reloadSSLFiles` fails before creation and is
valid once Created. -/
theorem c8_listener_state_machine (m m1 : ListenerManager)
    (gc gk : String) (info : ListenerInfo)
    (h : m.createListeners gc gk = some m1) :
    m.phase_ = LMPhase.Declared ∧
    m.addListener info =
      some { m with listeners_ := m.listeners_ ++ [info] } ∧
    m.reloadSSLFiles = Option.none ∧
    m1.createListeners gc gk = Option.none ∧
    m1.addListener info = Option.none ∧
    m1.reloadSSLFiles.isSome = true := by
  have hph : m.phase_ = LMPhase.Declared := by
    by_cases hd : m.phase_ = LMPhase.Declared
    · exact hd
    · unfold ListenerManager.createListeners at h
      simp [hd] at h
  have hm1 : m1 = { m with
      phase_ := LMPhase.Created
      servers_ := m.listeners_.map (fun i => effectiveCertKey i gc gk) } := by
    unfold ListenerManager.createListeners at h
    simp [hph] at h
    exact h.symm
  subst hm1
  refine ⟨hph, ?_, ?_, ?_, ?_, ?_⟩
  · unfold ListenerManager.addListener
    simp [hph]
  · unfold ListenerManager.reloadSSLFiles
    simp [hph]
  · unfold ListenerManager.createListeners
    simp
  · unfold ListenerManager.addListener
    simp
  · unfold ListenerManager.reloadSSLFiles
    simp

/-- C8 (witness): creating on a fresh manager succeeds; on the resulting
manager a second creation and a further `addListener` fail while
`reloadSSLFiles` is valid, and before creation `reloadSSLFiles` fails. -/
theorem c8_listener_witness :
    ListenerManager.init.createListeners "c" "k" = some lmAfterCreate ∧
    lmAfterCreate.createListeners "c" "k" = Option.none ∧
    lmAfterCreate.addListener li0 = Option.none ∧
    lmAfterCreate.reloadSSLFiles.isSome = true ∧
    ListenerManager.init.reloadSSLFiles = Option.none := by
  have h := c8_listener_state_machine ListenerManager.init lmAfterCreate
    "c" "k" li0 (by decide)
  exact ⟨by decide, h.2.2.2.1, h.2.2.2.2.1, h.2.2.2.2.2, h.2.2.1⟩
